import Mathlib

/-!
Verification of the SQLAlchemy model layer of kernel-planckster
(`src/lib/infrastructure/repository/sqla/models.py`) and the
`ListSourceDataDTO` transport container
(`src/lib/core/dto/source_data_repository_dto.py`).

The mutation primitives `save` / `delete` / `update` of `ModelBase` and the
soft-deletion override of `SoftModelBase` are embedded as pure functions over
an explicit session log: the externally supplied transactional session is
modelled as the list of operations (`add`, physical `delete`, `flush`) issued
to it, and a raised Python exception is an `Except.error`.  Where a primitive
mutates the entity before it can fail (the Python object keeps the mutation
when the exception propagates), the embedding returns the final entity state
paired with the outcome, so the state at the moment of the error is visible.
-/

/-- One operation issued to the externally owned transactional session:
`session.add(self)`, `session.delete(self)` (physical removal) or
`session.flush()`. -/
inductive SessionOp (α : Type) : Type
  | add (e : α)
  | physDelete (e : α)
  | doFlush
  deriving DecidableEq, Repr

/-- A session is modelled by the log of operations issued to it, in order. -/
abbrev SessionLog (α : Type) : Type := List (SessionOp α)

/-- Embeds `ModelBase.save(self, flush=True, session=None)` (models.py lines 49-60):
raises `Exception("Session not found")` when `session` is falsy; otherwise
`session.add(self)` and, when `flush`, `session.flush()`. -/
def ModelBase.save {α : Type} (self : α) (fl : Bool) (session : Option (SessionLog α)) :
    Except String (SessionLog α) :=
  match session with
  | none => Except.error "Session not found"
  | some s =>
      Except.ok (s ++ [SessionOp.add self] ++ (if fl then [SessionOp.doFlush] else []))

/-- Embeds `ModelBase.delete(self, flush=True, session=None)` (models.py lines 62-69):
raises when no session; otherwise `session.delete(self)` (physical removal)
and, when `flush`, `session.flush()`. -/
def ModelBase.delete {α : Type} (self : α) (fl : Bool) (session : Option (SessionLog α)) :
    Except String (SessionLog α) :=
  match session with
  | none => Except.error "Session not found"
  | some s =>
      Except.ok (s ++ [SessionOp.physDelete self] ++ (if fl then [SessionOp.doFlush] else []))

/-- Attribute values are modelled as strings; an entity's mutable attribute
state (`self.__dict__` as touched by `setattr`) as an association list. -/
abbrev Attrs : Type := List (String × String)

/-- Embeds `self[k] = v`, i.e. `setattr(self, k, v)` (models.py line 82): the
attribute `k` now holds `v`, all other attributes unchanged. -/
def setattr (self : Attrs) (k v : String) : Attrs :=
  (self.filter (fun p => p.1 ≠ k)) ++ [(k, v)]

/-- Embeds `getattr(self, k)` (models.py line 85) on the modelled attribute state. -/
def getattr (self : Attrs) (k : String) : Option String :=
  (self.find? (fun p => p.1 = k)).map (fun p => p.2)

/-- Embeds `ModelBase.update(self, values, flush=True, session=None)` (models.py
lines 71-79): raises `Exception("Session not found")` when no session —
before the assignment loop, so the entity is returned unchanged; otherwise
performs `self[k] = v` for each pair of `values` in order and, when `flush`,
`session.flush()`.  Returns the final entity state paired with the outcome. -/
def ModelBase.update (self : Attrs) (values : List (String × String)) (fl : Bool)
    (session : Option (SessionLog Attrs)) : Attrs × Except String (SessionLog Attrs) :=
  match session with
  | none => (self, Except.error "Session not found")
  | some s =>
      let applied := values.foldl (fun acc kv => setattr acc kv.1 kv.2) self
      (applied, Except.ok (s ++ (if fl then [SessionOp.doFlush] else [])))

/-- The state of a soft-deletable entity (`SoftModelBase`, models.py lines
112-142): the `deleted` flag (column default `False`), the nullable
`deleted_at` timestamp, a creation timestamp and the remaining attributes.
Timestamps are naturals (ticks of `datetime.utcnow`). -/
structure SoftEntity : Type where
  eid : Nat := 0
  created_at : Nat := 0
  deleted : Bool := false
  deleted_at : Option Nat := none
  attrs : Attrs := []
  deriving DecidableEq, Repr

/-- Embeds `SoftModelBase.delete(self, flush=True, session=None)` (models.py lines
138-142): sets `self.deleted = True` and `self.deleted_at = datetime.utcnow()`
(`now` is that clock reading), then calls `self.save(session=session)` —
with `save`'s default `flush=True`; the `flush` argument `fl` of `delete`
itself is accepted but never read by the body.  The mutation precedes the
save call, so the returned entity state carries it even when save raises. -/
def SoftModelBase.delete (self : SoftEntity) (now : Nat) (_fl : Bool)
    (session : Option (SessionLog SoftEntity)) :
    SoftEntity × Except String (SessionLog SoftEntity) :=
  let mutated := { self with deleted := true, deleted_at := some now }
  (mutated, ModelBase.save mutated true session)

/-- One member of a `__table_args__` tuple: a `CheckConstraint(expr, name=n)`,
a unique `Index(n, cols..., unique=True)`, or the trailing dialect-options
dictionary `{"mysql_engine": "InnoDB"}`. -/
inductive TableArg : Type
  | check (expr : String) (cname : String)
  | uniqueIndex (iname : String) (cols : List String)
  | dialectOpts (engine : String)
  deriving DecidableEq, Repr

/-- Embeds Python `str.upper()` as used on the ASCII `__tablename__` strings:
uppercase every character. -/
def upperAscii (s : String) : String :=
  String.mk (s.data.map Char.toUpper)

/-- Embeds the `ModelBase.__table_args__` `declared_attr` (models.py lines 32-39),
evaluated for a mapped class whose `__tablename__` is `tn`. -/
def ModelBase.table_args (tn : String) : List TableArg :=
  [ TableArg.check "CREATED_AT IS NOT NULL" (upperAscii tn ++ "_CREATED_NN"),
    TableArg.check "UPDATED_AT IS NOT NULL" (upperAscii tn ++ "_UPDATED_NN"),
    TableArg.dialectOpts "InnoDB" ]

/-- Embeds the `SoftModelBase.__table_args__` `declared_attr` (models.py lines 119-128). -/
def SoftModelBase.table_args (tn : String) : List TableArg :=
  [ TableArg.check "CREATED_AT IS NOT NULL" (upperAscii tn ++ "_CREATED_NN"),
    TableArg.check "UPDATED_AT IS NOT NULL" (upperAscii tn ++ "_UPDATED_NN"),
    TableArg.check "DELETED IS NOT NULL" (upperAscii tn ++ "_DELETED_NN"),
    TableArg.dialectOpts "InnoDB" ]

/-- The mapped entity classes of models.py, each with its own
`__tablename__`. -/
inductive EntityClass : Type
  | client | sourceData | embeddingModel | llm | vectorStore
  | researchContext | conversation | citation
  | messageBase | userMessage | agentMessage | messageContent
  deriving DecidableEq, Repr

/-- The `__tablename__` of each mapped class. -/
def EntityClass.tablename : EntityClass → String
  | .client => "client"
  | .sourceData => "source_data"
  | .embeddingModel => "embedding_model"
  | .llm => "llm"
  | .vectorStore => "vector_store"
  | .researchContext => "research_context"
  | .conversation => "conversation"
  | .citation => "citation"
  | .messageBase => "message_base"
  | .userMessage => "user_message"
  | .agentMessage => "agent_message"
  | .messageContent => "message_content"

/-- Whether the class inherits `SoftModelBase` (every mapped class except
`SQLAVectorStore`, which derives from plain `ModelBase`, models.py
line 273). -/
def EntityClass.softDeletable : EntityClass → Bool
  | .vectorStore => false
  | _ => true

/-- A `__table_args__` tuple assigned directly in the class body, shadowing
the inherited `declared_attr` under Python attribute lookup.  Only
`SQLASourceData` does this (models.py line 216), with the unique composite
index on `(client_id, relative_path, protocol)`. -/
def EntityClass.ownTableArgs : EntityClass → Option (List TableArg)
  | .sourceData =>
      some [ TableArg.uniqueIndex "uix_client_id_relative_path_protocol"
               ["client_id", "relative_path", "protocol"] ]
  | _ => none

/-- The `__table_args__` the declarative machinery sees for a class: the
class's own assignment when present (Python attribute lookup stops there),
else the `declared_attr` inherited from `SoftModelBase` or `ModelBase`. -/
def EntityClass.table_args (c : EntityClass) : List TableArg :=
  match c.ownTableArgs with
  | some args => args
  | none =>
      if c.softDeletable then SoftModelBase.table_args c.tablename
      else ModelBase.table_args c.tablename

/-- A persisted `source_data` row restricted to the columns of the unique
index `uix_client_id_relative_path_protocol`.  `protocol` is a value of
`ProtocolEnum`, whose definition lives outside this excerpt
(`lib.core.entity.models`); its stored representation is its member name, a
string. -/
structure SourceDataRow : Type where
  client_id : Nat
  relative_path : String
  protocol : String
  deriving DecidableEq, Repr

/-- The column triple covered by the unique index (models.py line 216). -/
def SourceDataRow.key (r : SourceDataRow) : Nat × String × String :=
  (r.client_id, r.relative_path, r.protocol)

/-- Modelled from the spec: the storage engine's enforcement, at persist
time, of the unique index `uix_client_id_relative_path_protocol` declared in
`SQLASourceData.__table_args__` — the engine itself is an external
collaborator (spec section 7: constraint violations are detected by the
storage engine at flush/commit time and surface as a constraint-violation
error).  Persisting a row whose `(client_id, relative_path, protocol)`
triple matches an existing row fails; otherwise the row is appended. -/
def insertSourceData (tbl : List SourceDataRow) (r : SourceDataRow) :
    Except String (List SourceDataRow) :=
  if tbl.any (fun x => x.key = r.key) then
    Except.error "constraint violation: uix_client_id_relative_path_protocol"
  else
    Except.ok (tbl ++ [r])

/-- A persisted `source_data` row as seen by the cascade model: its id and
its owning `client_id` foreign key (models.py line 213). -/
structure SDChildRow : Type where
  sdid : Nat
  client_id : Nat
  deriving DecidableEq, Repr

/-- Database state relevant to the `Client -> SourceData` relationship:
the `client` table rows (soft-deletable entities) and the `source_data`
rows that reference them. -/
structure DBState : Type where
  clients : List SoftEntity
  source_data : List SDChildRow
  deriving DecidableEq, Repr

/-- Effect of one session operation on a client, under the relationship
`SQLAClient.source_data = relationship(..., cascade="all, delete")`
(models.py lines 164-166): `add` upserts the client row by id; a physical
`delete` removes the client row and, by the cascade, every `source_data`
row whose `client_id` references it; `flush` itself changes no rows (the
model applies each operation when issued). -/
def applyOp (db : DBState) (op : SessionOp SoftEntity) : DBState :=
  match op with
  | SessionOp.add c =>
      { db with clients := (db.clients.filter (fun x => x.eid ≠ c.eid)) ++ [c] }
  | SessionOp.physDelete c =>
      { clients := db.clients.filter (fun x => x.eid ≠ c.eid),
        source_data := db.source_data.filter (fun r => r.client_id ≠ c.eid) }
  | SessionOp.doFlush => db

/-- Effect of a whole session log, in order. -/
def applyOps (db : DBState) (ops : SessionLog SoftEntity) : DBState :=
  ops.foldl applyOp db

/-- The record type carried by `ListSourceDataDTO`
(`lib.core.entity.models.SourceData`, outside this excerpt); the DTO claims
depend only on the records' identity, so it is a wrapper around an id. -/
structure SourceData : Type where
  id : Nat
  deriving DecidableEq, Repr

/-- Embeds `ListSourceDataDTO` (source_data_repository_dto.py lines 7-12): the
`data` field holds a list of `SourceData` and defaults to the empty list.
Modelled from the spec: the base class `BaseDTO` (`lib.core.sdk.dto`) is not
in the excerpt; per spec sections 4.4 and 8 the DTO has no behaviour beyond
construction and field exposure — constructing it without a data sequence
applies the default `[]`, constructing it from a sequence stores that
sequence as given. -/
structure ListSourceDataDTO : Type where
  data : List SourceData := []
  deriving DecidableEq, Repr

/-- Construction from an empty query result / with the `data` field
absent: the field default applies. -/
def ListSourceDataDTO.mkDefault : ListSourceDataDTO := {}

/-- Construction from a query result sequence. -/
def ListSourceDataDTO.ofQuery (xs : List SourceData) : ListSourceDataDTO :=
  { data := xs }

/-- Helper: setting attribute `k` makes a subsequent read of `k` return the
written value. -/
theorem getattr_setattr (e : Attrs) (k v : String) :
    getattr (setattr e k v) k = some v := by
  simp [getattr, setattr]

/-- Whether a session operation is a physical removal request. -/
def SessionOp.isPhysDelete {α : Type} : SessionOp α → Bool
  | SessionOp.physDelete _ => true
  | _ => false

/-- C1: for every soft-deletable entity, `delete` with a valid session sets
`deleted := true` and `deleted_at := now`, then invokes the save path — the
session log gains an `add` of the updated row followed by a flush, and the
number of physical-removal operations in the session log does not grow, so
the row is updated rather than removed. -/
theorem soft_delete_updates_not_removes (e : SoftEntity) (now : Nat) (fl : Bool)
    (s : SessionLog SoftEntity) :
    (SoftModelBase.delete e now fl (some s)).1.deleted = true
  ∧ (SoftModelBase.delete e now fl (some s)).1.deleted_at = some now
  ∧ (SoftModelBase.delete e now fl (some s)).2 =
      Except.ok (s ++ [SessionOp.add { e with deleted := true, deleted_at := some now },
        SessionOp.doFlush])
  ∧ (s ++ [SessionOp.add { e with deleted := true, deleted_at := some now },
        SessionOp.doFlush]).countP SessionOp.isPhysDelete =
      s.countP SessionOp.isPhysDelete := by
  refine ⟨rfl, rfl, by simp [SoftModelBase.delete, ModelBase.save], ?_⟩
  simp [List.countP_append, SessionOp.isPhysDelete]

/-- C2 counterexample: `source_data` is a persisted entity table of this
schema, yet its `__table_args__` is exactly the unique composite index — the
inherited check constraints (in particular the `created_at` non-null check
named `SOURCE_DATA_CREATED_NN`) are absent, because the class-level
assignment shadows the inherited `declared_attr`. -/
theorem sourceData_table_args_no_checks :
    EntityClass.table_args EntityClass.sourceData =
      [ TableArg.uniqueIndex "uix_client_id_relative_path_protocol"
          ["client_id", "relative_path", "protocol"] ]
  ∧ TableArg.check "CREATED_AT IS NOT NULL" "SOURCE_DATA_CREATED_NN" ∉
      EntityClass.table_args EntityClass.sourceData := by
  refine ⟨rfl, ?_⟩
  decide

/-- C2 (amended): every mapped entity class other than `sourceData` carries
the inherited check constraints — `created_at` and `updated_at` non-null,
and `deleted` non-null when the class is soft-deletable; `sourceData`'s own
`__table_args__` assignment replaces them with just the unique index. -/
theorem table_args_checks_except_sourceData (c : EntityClass)
    (h : c ≠ EntityClass.sourceData) :
    TableArg.check "CREATED_AT IS NOT NULL" (upperAscii c.tablename ++ "_CREATED_NN") ∈
        c.table_args
  ∧ TableArg.check "UPDATED_AT IS NOT NULL" (upperAscii c.tablename ++ "_UPDATED_NN") ∈
        c.table_args
  ∧ (c.softDeletable = true →
      TableArg.check "DELETED IS NOT NULL" (upperAscii c.tablename ++ "_DELETED_NN") ∈
        c.table_args) := by
  cases c
  case sourceData => exact absurd rfl h
  all_goals decide

/-- Witness for C2 (amended) at the `client` class. -/
theorem table_args_checks_witness :
    EntityClass.client ≠ EntityClass.sourceData
  ∧ (TableArg.check "CREATED_AT IS NOT NULL" "CLIENT_CREATED_NN" ∈
        EntityClass.table_args EntityClass.client
    ∧ TableArg.check "UPDATED_AT IS NOT NULL" "CLIENT_UPDATED_NN" ∈
        EntityClass.table_args EntityClass.client
    ∧ (EntityClass.softDeletable EntityClass.client = true →
        TableArg.check "DELETED IS NOT NULL" "CLIENT_DELETED_NN" ∈
          EntityClass.table_args EntityClass.client)) :=
  ⟨by decide, table_args_checks_except_sourceData EntityClass.client (by decide)⟩

/-- C3 counterexample: a client with id 1 owning one `source_data` row;
invoking the client's `delete` operation (the `SoftModelBase` override)
issues an `add` of the soft-deleted row plus a flush, and applying those
operations leaves the client's `source_data` row in place — nothing is
physically removed, so the cascade does not run. -/
theorem client_delete_cascade_counterexample :
    (SoftModelBase.delete { eid := 1 } 5 true (some [])).2 =
      Except.ok [SessionOp.add { eid := 1, deleted := true, deleted_at := some 5 },
        SessionOp.doFlush]
  ∧ (applyOps
        { clients := [{ eid := 1 }], source_data := [{ sdid := 10, client_id := 1 }] }
        [SessionOp.add { eid := 1, deleted := true, deleted_at := some 5 },
          SessionOp.doFlush]).source_data =
      [{ sdid := 10, client_id := 1 }] :=
  ⟨rfl, rfl⟩

/-- C3 (amended): invoking the delete operation on a Client soft-deletes it
(re-saves the row with `deleted := true`) and leaves every `source_data` row
untouched; the `cascade="all, delete"` ownership removes a client's
`source_data` rows only under a physical session delete, as `ModelBase.delete`
would issue. -/
theorem client_delete_soft_no_cascade (db : DBState) (c : SoftEntity) (now : Nat)
    (fl fl2 : Bool) :
    (SoftModelBase.delete c now fl (some [])).2 =
      Except.ok [SessionOp.add { c with deleted := true, deleted_at := some now },
        SessionOp.doFlush]
  ∧ (applyOps db [SessionOp.add { c with deleted := true, deleted_at := some now },
        SessionOp.doFlush]).source_data = db.source_data
  ∧ ModelBase.delete c fl2 (some ([] : SessionLog SoftEntity)) =
      Except.ok ([SessionOp.physDelete c] ++ (if fl2 then [SessionOp.doFlush] else []))
  ∧ (applyOps db
        ([SessionOp.physDelete c] ++ (if fl2 then [SessionOp.doFlush] else []))).source_data =
      db.source_data.filter (fun r => r.client_id ≠ c.eid) := by
  refine ⟨by simp [SoftModelBase.delete, ModelBase.save], rfl,
    by simp [ModelBase.delete], ?_⟩
  cases fl2 <;> rfl

/-- C4 counterexample: with no session and flush not requested, `update`
does not apply the values and succeed — it fails with the no-session error
(and leaves the entity unchanged). -/
theorem update_no_session_flush_false_fails :
    ModelBase.update [("name", "a")] [("name", "x")] false none =
      ([("name", "a")], Except.error "Session not found") :=
  rfl

/-- C4 (amended): `update(values, flush, session)` fails with the no-session
error exactly when no session is given — regardless of whether a flush is
requested; with a session it applies each entry of the mapping onto the
entity's attributes in order (a written key then reads back as written) and
flushes iff requested. -/
theorem update_applies_values (e : Attrs) (vals : List (String × String))
    (k v : String) (fl : Bool) (s : SessionLog Attrs) :
    ModelBase.update e vals fl none = (e, Except.error "Session not found")
  ∧ ModelBase.update e vals fl (some s) =
      (vals.foldl (fun acc kv => setattr acc kv.1 kv.2) e,
        Except.ok (s ++ (if fl then [SessionOp.doFlush] else [])))
  ∧ getattr (ModelBase.update e (vals ++ [(k, v)]) fl (some s)).1 k = some v := by
  refine ⟨rfl, rfl, ?_⟩
  simp [ModelBase.update, getattr_setattr]

/-- C5 counterexample: calling `SoftModelBase.delete` with `flush := false`
on a valid session still issues a flush — the override passes `save` its
default `flush=True` and never reads its own flush argument. -/
theorem soft_delete_flush_false_still_flushes :
    (SoftModelBase.delete { eid := 2 } 3 false (some [])).2 =
      Except.ok [SessionOp.add { eid := 2, deleted := true, deleted_at := some 3 },
        SessionOp.doFlush] :=
  rfl

/-- C5 (amended): `SoftModelBase.delete` ignores its flush argument — the
result is the same for any two flush values, and with a valid session the
issued operations always end in a flush, whether or not one was requested. -/
theorem soft_delete_ignores_flush_arg (e : SoftEntity) (now : Nat) (fl fl2 : Bool)
    (s : SessionLog SoftEntity) :
    SoftModelBase.delete e now fl (some s) = SoftModelBase.delete e now fl2 (some s)
  ∧ (SoftModelBase.delete e now fl (some s)).2 =
      Except.ok (s ++ [SessionOp.add { e with deleted := true, deleted_at := some now },
        SessionOp.doFlush]) :=
  ⟨rfl, by simp [SoftModelBase.delete, ModelBase.save]⟩

/-- C6: the unique index on `(client_id, relative_path, protocol)` — a first
row always persists into an empty table; a second row matching an existing
row on the whole triple fails with the constraint-violation error; a second
row differing on at least one of the three fields persists as well. -/
theorem sourceData_unique_triple (r1 r2 : SourceDataRow) :
    insertSourceData [] r1 = Except.ok [r1]
  ∧ (r1.key = r2.key →
      insertSourceData [r1] r2 =
        Except.error "constraint violation: uix_client_id_relative_path_protocol")
  ∧ (r1.key ≠ r2.key → insertSourceData [r1] r2 = Except.ok [r1, r2]) := by
  refine ⟨rfl, ?_, ?_⟩
  · intro hk
    simp [insertSourceData, hk]
  · intro hk
    simp [insertSourceData, hk]

/-- Witness for C6: one concrete collision on the full triple fails, and one
concrete pair differing only in `relative_path` succeeds. -/
theorem sourceData_unique_triple_witness :
    insertSourceData [{ client_id := 1, relative_path := "a/b.txt", protocol := "s3" }]
        { client_id := 1, relative_path := "a/b.txt", protocol := "s3" } =
      Except.error "constraint violation: uix_client_id_relative_path_protocol"
  ∧ insertSourceData [{ client_id := 1, relative_path := "a/b.txt", protocol := "s3" }]
        { client_id := 1, relative_path := "c.txt", protocol := "s3" } =
      Except.ok [{ client_id := 1, relative_path := "a/b.txt", protocol := "s3" },
        { client_id := 1, relative_path := "c.txt", protocol := "s3" }] :=
  ⟨(sourceData_unique_triple
      { client_id := 1, relative_path := "a/b.txt", protocol := "s3" }
      { client_id := 1, relative_path := "a/b.txt", protocol := "s3" }).2.1 rfl,
   (sourceData_unique_triple
      { client_id := 1, relative_path := "a/b.txt", protocol := "s3" }
      { client_id := 1, relative_path := "c.txt", protocol := "s3" }).2.2 (by decide)⟩

/-- C7: `save` fails with the no-session error when and only when no session
is supplied; with a session it appends an `add` of the entity and the number
of flush operations in the log grows by one exactly when a flush is
requested. -/
theorem save_contract (e : SoftEntity) (fl : Bool) (s : SessionLog SoftEntity) :
    ModelBase.save e fl none = Except.error "Session not found"
  ∧ ModelBase.save e fl (some s) =
      Except.ok (s ++ [SessionOp.add e] ++ (if fl then [SessionOp.doFlush] else []))
  ∧ (s ++ [SessionOp.add e] ++ (if fl then [SessionOp.doFlush] else [])).count
        (SessionOp.doFlush : SessionOp SoftEntity) =
      s.count SessionOp.doFlush + (if fl then 1 else 0)
  ∧ (s ++ [SessionOp.add e] ++ (if fl then [SessionOp.doFlush] else [])).count
        (SessionOp.add e) =
      s.count (SessionOp.add e) + 1 := by
  refine ⟨rfl, rfl, ?_, ?_⟩
  · cases fl <;> simp [List.count_append, List.count_singleton]
  · cases fl <;> simp [List.count_append, List.count_singleton]

/-- C8: a `ListSourceDataDTO` built with no data sequence exposes the empty
list in `data` (never an absent value — the field's type is a list), and one
built from a query result sequence exposes exactly that sequence, in order. -/
theorem listSourceDataDTO_default_and_order (xs : List SourceData) :
    ListSourceDataDTO.mkDefault.data = ([] : List SourceData)
  ∧ (ListSourceDataDTO.ofQuery xs).data = xs :=
  ⟨rfl, rfl⟩

/-- C9: calling `SoftModelBase.delete` with no session raises the no-session
error, but the entity state at that point already carries the mutation:
`deleted` is true and `deleted_at` is set to the clock reading — the
mutation precedes the session check inside the save path. -/
theorem soft_delete_no_session_mutates (e : SoftEntity) (now : Nat) (fl : Bool) :
    (SoftModelBase.delete e now fl none).2 = Except.error "Session not found"
  ∧ (SoftModelBase.delete e now fl none).1.deleted = true
  ∧ (SoftModelBase.delete e now fl none).1.deleted_at = some now :=
  ⟨rfl, rfl, rfl⟩

/-- C10: calling `update` with no session raises the no-session error before
the assignment loop runs, so the returned entity state is exactly the input
entity — every attribute unchanged, for any mapping of values. -/
theorem update_no_session_atomic (e : Attrs) (vals : List (String × String))
    (fl : Bool) :
    ModelBase.update e vals fl none = (e, Except.error "Session not found") :=
  rfl
